import Mathlib

set_option maxRecDepth 100000

/-!
Verification of the Resilient Session Pool of `ap.py`
(AfterPay Email Batch Validator).

Shallow embedding conventions:
* Python strings are modelled as `List Nat` of character code points;
  `str.lower()` is modelled by `low` (ASCII lowercasing, the only case
  relevant to the ASCII markers the code compares against), and the
  Python substring test `needle in hay` by `subStr`.
* Pure classification (`classify_page`) is a Lean function.
* The per-email monitoring logic of `validate_email` is a function of the
  sampled trace the browser would produce (one `VSample` per 0.2 s poll,
  plus the final page read and the one re-check read).
* The worker retry loop of `browser_worker` is a fuel-indexed recursive
  function over an oracle giving the outcome of each validation attempt;
  the exception hierarchy of selenium (`TimeoutException <: WebDriverException`,
  `BrowserDetectedException <: WebDriverException`) is embedded so that the
  `except` clauses dispatch exactly as Python does.
* The pool (`process_emails` / `stop`) is a small-step transition relation
  over queue, per-worker control state, result store and the stop flag.
-/

/-- ASCII lowercasing of one code point, as Python `str.lower` acts on the
ASCII markers used by the program. -/
def low (n : Nat) : Nat := if 65 ≤ n ∧ n ≤ 90 then n + 32 else n

/-- Lowercase a whole string (list of code points). -/
def lowList (s : List Nat) : List Nat := s.map low

/-- Code points of a Lean string literal; used to transcribe the marker
strings of `ap.py`. -/
def s2l (s : String) : List Nat := s.toList.map Char.toNat

/-- The apostrophe code point (kept out of string literals). -/
def apos : Nat := 39

/-- The double-quote code point (kept out of string literals). -/
def quot2 : Nat := 34

/-- Python `p.startswith(q)` / list prefix test. -/
def listPre : List Nat → List Nat → Bool
  | [], _ => true
  | _ :: _, [] => false
  | a :: as, b :: bs => (a == b) && listPre as bs

/-- Python substring containment `needle in hay`. -/
def subStr (needle : List Nat) : List Nat → Bool
  | [] => needle.isEmpty
  | b :: bs => listPre needle (b :: bs) || subStr needle bs

theorem low_idem (n : Nat) : low (low n) = low n := by
  unfold low
  by_cases h : 65 ≤ n ∧ n ≤ 90
  · simp only [if_pos h]
    rw [if_neg (by omega)]
  · simp only [if_neg h]

theorem lowList_idem (s : List Nat) : lowList (lowList s) = lowList s := by
  unfold lowList
  rw [List.map_map]
  simp [Function.comp, low_idem]

/-! ## Classification engine (`classify_page`, ap.py lines 36-98) -/

structure Classification where
  is_valid : Bool
  is_invalid : Bool
  is_detection : Bool
  reason : List Nat
deriving DecidableEq

/-- `BOT_DETECTION_MARKERS` (ap.py lines 36-44), in source order. -/
def BOT_DETECTION_MARKERS : List (List Nat) :=
  [s2l ("access denied"), s2l ("unusual traffic"), s2l ("have detected"),
   s2l ("captcha"), s2l ("recaptcha"), s2l ("blocked"),
   s2l ("error 403"), s2l ("error 429"), s2l ("corrupt"),
   s2l ("corrupted"), s2l ("connection reset"),
   s2l ("an unknown error occurred"), s2l ("unknown error occurred"),
   s2l ("please try again"),
   s2l ("no such window"), s2l ("web view not found"),
   s2l ("target window already closed"),
   s2l ("something went wrong"), s2l ("temporary issue"),
   s2l ("service unavailable"), s2l ("try again later"),
   s2l ("browser not supported"), s2l ("javascript required"),
   s2l ("cookies required"),
   s2l ("request blocked"), s2l ("access restricted"),
   s2l ("verification required")]

/-- `invalid_markers` local list of `classify_page` (ap.py lines 72-75);
the apostrophes of the source strings are inserted as code point 39. -/
def invalid_markers : List (List Nat) :=
  [s2l ("account not found"),
   s2l ("we couldn") ++ [apos] ++ s2l ("t find"),
   s2l ("couldn") ++ [apos] ++ s2l ("t find"),
   s2l ("no account"), s2l ("not registered"), s2l ("no user found"),
   s2l ("email not found"), s2l ("invalid email")]

/-- The three markers excluded from the detection scan of `classify_page`
(ap.py lines 82-83). -/
def excludedMarkers : List (List Nat) :=
  [s2l ("an unknown error occurred"), s2l ("unknown error occurred"),
   s2l ("please try again")]

/-- `detection_markers_filtered` (ap.py lines 82-83). -/
def detection_markers_filtered : List (List Nat) :=
  BOT_DETECTION_MARKERS.filter (fun m => !(excludedMarkers.contains m))

/-- The URL marker `/password` (ap.py line 64). -/
def slashPassword : List Nat := s2l ("/password")

/-- Page marker `input type=` + apostrophe + `password` + apostrophe
(ap.py line 67). -/
def pwInput1 : List Nat :=
  s2l ("input type=") ++ [apos] ++ s2l ("password") ++ [apos]

/-- Page marker `input type="password"` (ap.py line 67). -/
def pwInput2 : List Nat :=
  s2l ("input type=") ++ [quot2] ++ s2l ("password") ++ [quot2]

/-- Page marker `name="password"` (ap.py line 67). -/
def pwInput3 : List Nat :=
  s2l ("name=") ++ [quot2] ++ s2l ("password") ++ [quot2]

/-- The password-input condition of ap.py line 67. -/
def pwInputB (ps : List Nat) : Bool :=
  subStr pwInput1 ps || subStr pwInput2 ps || subStr pwInput3 ps

/-- The "unknown error" condition used at ap.py lines 91, 418 and 466. -/
def unknownErrB (ps : List Nat) : Bool :=
  subStr (s2l ("an unknown error occurred")) ps ||
  subStr (s2l ("unknown error occurred")) ps

/-- Body of `classify_page` after the two inputs have been lowercased
(ap.py lines 62-98). -/
def classify_core (fu ps : List Nat) : Classification :=
  if subStr slashPassword fu then
    ⟨true, false, false, s2l ("url_contains_password")⟩
  else if pwInputB ps then
    ⟨true, false, false, s2l ("password_field_found")⟩
  else
    match invalid_markers.find? (fun im => subStr im ps) with
    | some im => ⟨false, true, false, s2l ("invalid_marker:") ++ im⟩
    | none =>
      match detection_markers_filtered.find?
          (fun m => subStr m fu || subStr m ps) with
      | some m => ⟨false, false, true, s2l ("detected_marker:") ++ m⟩
      | none =>
        if unknownErrB ps then
          ⟨false, false, true, s2l ("detected_marker:unknown_error")⟩
        else
          ⟨false, true, false, s2l ("fallback_invalid")⟩

/-- `classify_page(final_url, page_source)` (ap.py lines 54-98): `None`
inputs are defaulted to the empty string (`final_url or` empty) and both
inputs are lowercased before any marker comparison. -/
def classify_page (finalUrl pageSource : Option (List Nat)) : Classification :=
  classify_core (lowList (finalUrl.getD [])) (lowList (pageSource.getD []))

theorem classify_core_flags (fu ps : List Nat) :
    (classify_core fu ps).is_valid.toNat +
    (classify_core fu ps).is_invalid.toNat +
    (classify_core fu ps).is_detection.toNat = 1 := by
  unfold classify_core
  repeat' split
  all_goals rfl

/-- Claim C2: the password-page signal outranks both detection markers and
invalid markers: whenever the (lowercased) final URL contains `/password`
or the (lowercased) page markup contains a password-type input field,
`classify_page` returns a Valid classification — never Invalid and never
Detected — whatever else the page text contains. -/
theorem c2_password_priority (fu ps : List Nat)
    (h : subStr slashPassword (lowList fu) = true ∨ pwInputB (lowList ps) = true) :
    (classify_page (some fu) (some ps)).is_valid = true ∧
    (classify_page (some fu) (some ps)).is_invalid = false ∧
    (classify_page (some fu) (some ps)).is_detection = false := by
  simp only [classify_page, Option.getD]
  rcases h with h | h
  · simp [classify_core, h]
  · by_cases h1 : subStr slashPassword (lowList fu) = true
    · simp [classify_core, h1]
    · simp [classify_core, h1, h]

theorem c2_password_priority_witness :
    (subStr slashPassword (lowList (s2l ("https://portal.afterpay.com/password"))) = true ∨
      pwInputB (lowList (s2l ("captcha account not found"))) = true) ∧
    (classify_page (some (s2l ("https://portal.afterpay.com/password")))
        (some (s2l ("captcha account not found")))).is_valid = true ∧
    (classify_page (some (s2l ("https://portal.afterpay.com/password")))
        (some (s2l ("captcha account not found")))).is_invalid = false ∧
    (classify_page (some (s2l ("https://portal.afterpay.com/password")))
        (some (s2l ("captcha account not found")))).is_detection = false :=
  ⟨Or.inl (by decide), c2_password_priority _ _ (Or.inl (by decide))⟩

/-- Claim C10: `classify_page` is total over `Option`-valued inputs (None is
defaulted to the empty string, so it returns on every input without
raising), exactly one of its three flags is set on every input, and its
result is invariant under lowercasing of both inputs, because both are
lowercased before any marker comparison. -/
theorem c10_classify_total_exclusive (finalUrl pageSource : Option (List Nat)) :
    ((classify_page finalUrl pageSource).is_valid.toNat +
      (classify_page finalUrl pageSource).is_invalid.toNat +
      (classify_page finalUrl pageSource).is_detection.toNat = 1) ∧
    classify_page (finalUrl.map lowList) (pageSource.map lowList) =
      classify_page finalUrl pageSource := by
  constructor
  · simp only [classify_page]
    exact classify_core_flags _ _
  · cases finalUrl <;> cases pageSource <;>
      simp [classify_page, lowList_idem]

/-! ## `validate_email` page-transition monitoring (ap.py lines 343-511) -/

/-- One 0.2 s poll of the browser: current URL and page source
(ap.py lines 394-433). -/
structure VSample where
  url : List Nat
  src : List Nat
deriving DecidableEq

/-- How the 300-iteration monitoring loop of `validate_email` ends. -/
inductive PollOutcome where
  | raiseDetected
  | earlyInvalid (marker : List Nat)
  | fallthrough
deriving DecidableEq

/-- `account not found` (ap.py line 406). -/
def accountNotFoundM : List Nat := s2l ("account not found")

/-- `couldn` + apostrophe + `t find` (ap.py line 410). -/
def couldntFindM : List Nat := s2l ("couldn") ++ [apos] ++ s2l ("t find")

/-- `we couldn` + apostrophe + `t find` (ap.py line 410). -/
def weCouldntFindM : List Nat := s2l ("we couldn") ++ [apos] ++ s2l ("t find")

/-- `please try again` (ap.py line 468). -/
def pleaseTryAgainM : List Nat := s2l ("please try again")

/-- The monitoring loop of `validate_email` (ap.py lines 394-433):
`remaining` counts the iterations left of `range(300)`, `i` is the current
iteration index, `cnt` the consecutive-occurrence counter
`unknown_error_count`.  The loop exits on a URL change, on an explicit
invalid marker, after 300 iterations, or by raising
`BrowserDetectedException` when the unknown-error marker has been seen on
3 consecutive samples with iteration index `>= 10`. -/
def pollAux (initialUrl : List Nat) (samples : Nat → VSample) :
    Nat → Nat → Nat → PollOutcome
  | 0, _, _ => .fallthrough
  | r + 1, i, cnt =>
    if (samples i).url ≠ initialUrl then .fallthrough
    else if subStr accountNotFoundM (lowList (samples i).src) then
      .earlyInvalid accountNotFoundM
    else if subStr couldntFindM (lowList (samples i).src) ||
        subStr weCouldntFindM (lowList (samples i).src) then
      .earlyInvalid couldntFindM
    else if 10 ≤ i then
      if unknownErrB (lowList (samples i).src) then
        if 3 ≤ cnt + 1 then .raiseDetected
        else pollAux initialUrl samples r (i + 1) (cnt + 1)
      else pollAux initialUrl samples r (i + 1) 0
    else pollAux initialUrl samples r (i + 1) cnt

/-- The full monitoring loop: 300 iterations, starting counter 0. -/
def pollLoop (initialUrl : List Nat) (samples : Nat → VSample) : PollOutcome :=
  pollAux initialUrl samples 300 0 0

/-- Outcome of one `validate_email` call as seen by the worker. -/
inductive VOutcome where
  | valid (reason : List Nat)
  | invalid (reason : List Nat)
  | detected (reason : List Nat)
deriving DecidableEq

/-- Message of the `BrowserDetectedException` raised at ap.py
lines 423 and 470. -/
def unknownRestartMsg : List Nat :=
  s2l ("An unknown error occurred. Please try again (restart browser)")

/-- Message of the `BrowserDetectedException` raised at ap.py
lines 504 and 511. -/
def detectedBlockedMsg (reason : List Nat) : List Nat :=
  s2l ("Browser detected/blocked due to: ") ++ reason

/-- The one re-check after the 1.5 s delay (ap.py lines 495-505) together
with the final valid/invalid resolution (lines 508-518): detection in the
re-check raises, otherwise the re-check classification is accepted. -/
def recheckResolve (recheckUrl recheckSrc : List Nat) : VOutcome :=
  let d := classify_page (some recheckUrl) (some recheckSrc)
  if d.is_detection = true then .detected (detectedBlockedMsg d.reason)
  else if d.is_valid = true then .valid d.reason
  else .invalid d.reason

/-- The outcome of `validate_email` after the monitoring loop
(ap.py lines 435-518), as a function of the polled trace, the result of the
20 s DOM wait for a password field (`passwordWait`), the final URL and page
source read after that wait, and the URL and page source read by the single
re-check. -/
def validateOutcome (initialUrl : List Nat) (samples : Nat → VSample)
    (passwordWait : Bool) (finalUrl finalSrc recheckUrl recheckSrc : List Nat) :
    VOutcome :=
  match pollLoop initialUrl samples with
  | .raiseDetected => .detected unknownRestartMsg
  | pollRes =>
    let earlyInv : Option (List Nat) :=
      match pollRes with
      | .earlyInvalid m => some m
      | _ => none
    let password_present : Bool := if earlyInv = none then passwordWait else false
    let psLower := lowList finalSrc
    if earlyInv = none ∧ password_present = false ∧ unknownErrB psLower = true ∧
        subStr pleaseTryAgainM psLower = true ∧ finalUrl = initialUrl then
      .detected unknownRestartMsg
    else if password_present = true then .valid (s2l ("password_field"))
    else
      match earlyInv with
      | some m => .invalid (s2l ("invalid_marker:") ++ m)
      | none =>
        let c := classify_page (some finalUrl) (some finalSrc)
        let explicitInvalid : Prop :=
          c.is_invalid = true ∧ listPre (s2l ("invalid_marker")) c.reason = true
        let c2 := if c.is_detection = false ∧ ¬ explicitInvalid ∧ finalUrl ≠ initialUrl then
            ({ is_valid := true, is_invalid := false, is_detection := false,
               reason := s2l ("url_changed_redirect") } : Classification)
          else c
        if c2.is_invalid = true ∧ c2.reason = s2l ("fallback_invalid") ∧
            finalUrl = initialUrl then
          recheckResolve recheckUrl recheckSrc
        else if c2.is_detection = true then .detected (detectedBlockedMsg c2.reason)
        else if c2.is_valid = true then .valid c2.reason
        else .invalid c2.reason

/-- No loop-exit condition fires at sample `j`: the URL is unchanged and no
early-invalid marker is present. -/
def cleanNoExit (initialUrl : List Nat) (samples : Nat → VSample) (j : Nat) : Prop :=
  (samples j).url = initialUrl ∧
  subStr accountNotFoundM (lowList (samples j).src) = false ∧
  subStr couldntFindM (lowList (samples j).src) = false ∧
  subStr weCouldntFindM (lowList (samples j).src) = false

theorem pollAux_no_post_grace_marker (initialUrl : List Nat) (samples : Nat → VSample)
    (h : ∀ j, 10 ≤ j → unknownErrB (lowList (samples j).src) = false) :
    ∀ r i cnt, pollAux initialUrl samples r i cnt ≠ .raiseDetected := by
  intro r
  induction r with
  | zero => intro i cnt; simp [pollAux]
  | succ r ih =>
    intro i cnt
    simp only [pollAux]
    split
    · simp
    · split
      · simp
      · split
        · simp
        · split
          · next h10 =>
            rw [h i h10]
            simp only [Bool.false_eq_true, if_false]
            exact ih _ _
          · exact ih _ _

theorem pollAux_step_clean (initialUrl : List Nat) (samples : Nat → VSample)
    (r i cnt : Nat) (hc : cleanNoExit initialUrl samples i)
    (hm : unknownErrB (lowList (samples i).src) = false) :
    pollAux initialUrl samples (r + 1) i cnt =
      pollAux initialUrl samples r (i + 1) (if 10 ≤ i then 0 else cnt) := by
  obtain ⟨h1, h2, h3, h4⟩ := hc
  simp only [pollAux]
  rw [if_neg (fun hne => hne h1), if_neg (by simp [h2]), if_neg (by simp [h3, h4])]
  by_cases h10 : 10 ≤ i
  · rw [if_pos h10, if_pos h10, if_neg (by simp [hm])]
  · rw [if_neg h10, if_neg h10]

theorem pollAux_step_marker (initialUrl : List Nat) (samples : Nat → VSample)
    (r i cnt : Nat) (hc : cleanNoExit initialUrl samples i)
    (h10 : 10 ≤ i) (hm : unknownErrB (lowList (samples i).src) = true) :
    pollAux initialUrl samples (r + 1) i cnt =
      if 3 ≤ cnt + 1 then .raiseDetected
      else pollAux initialUrl samples r (i + 1) (cnt + 1) := by
  obtain ⟨h1, h2, h3, h4⟩ := hc
  simp only [pollAux]
  rw [if_neg (fun hne => hne h1), if_neg (by simp [h2]), if_neg (by simp [h3, h4]),
    if_pos h10, if_pos hm]

theorem pollAux_skip (initialUrl : List Nat) (samples : Nat → VSample) :
    ∀ n r i, (∀ j, i ≤ j → j < i + n → cleanNoExit initialUrl samples j ∧
        unknownErrB (lowList (samples j).src) = false) →
      pollAux initialUrl samples (n + r) i 0 = pollAux initialUrl samples r (i + n) 0 := by
  intro n
  induction n with
  | zero => intro r i _; rw [Nat.zero_add, Nat.add_zero]
  | succ n ih =>
    intro r i h
    have hstep := pollAux_step_clean initialUrl samples (n + r) i 0
      (h i le_rfl (by omega)).1 (h i le_rfl (by omega)).2
    rw [show (n + 1) + r = (n + r) + 1 from by omega, hstep, ite_self]
    rw [ih r (i + 1) (fun j hj1 hj2 => h j (by omega) (by omega))]
    rw [show i + 1 + n = i + (n + 1) from by omega]

theorem pollAux_fire (initialUrl : List Nat) (samples : Nat → VSample)
    (i r : Nat) (h10 : 10 ≤ i) (hr : 3 ≤ r)
    (hc : ∀ j, j < 3 → cleanNoExit initialUrl samples (i + j))
    (hm : ∀ j, j < 3 → unknownErrB (lowList (samples (i + j)).src) = true) :
    pollAux initialUrl samples r i 0 = .raiseDetected := by
  obtain ⟨r', rfl⟩ : ∃ r', r = r' + 3 := ⟨r - 3, by omega⟩
  have e0 := pollAux_step_marker initialUrl samples (r' + 2) i 0
    (by simpa using hc 0 (by omega)) h10 (by simpa using hm 0 (by omega))
  rw [show r' + 3 = (r' + 2) + 1 from rfl, e0, if_neg (by omega)]
  have e1 := pollAux_step_marker initialUrl samples (r' + 1) (i + 1) 1
    (hc 1 (by omega)) (by omega) (hm 1 (by omega))
  rw [e1, if_neg (by omega)]
  have hc2 : cleanNoExit initialUrl samples (i + 1 + 1) := by
    have := hc 2 (by omega)
    rwa [show i + 2 = i + 1 + 1 from by omega] at this
  have hm2 : unknownErrB (lowList (samples (i + 1 + 1)).src) = true := by
    have := hm 2 (by omega)
    rwa [show i + 2 = i + 1 + 1 from by omega] at this
  have e2 := pollAux_step_marker initialUrl samples r' (i + 1 + 1) 2 hc2 (by omega) hm2
  rw [e2, if_pos (by omega)]


theorem classify_fallback_no_unknown (fu ps : List Nat)
    (h : classify_page (some fu) (some ps) =
      ⟨false, true, false, s2l ("fallback_invalid")⟩) :
    unknownErrB (lowList ps) = false := by
  by_cases hm : unknownErrB (lowList ps) = true
  · exfalso
    simp only [classify_page, Option.getD] at h
    unfold classify_core at h
    split at h
    · simp at h
    · split at h
      · simp at h
      · split at h
        · rename_i im heq
          have him := List.mem_of_find?_eq_some heq
          have hr := congrArg Classification.reason h
          simp only [invalid_markers] at him
          fin_cases him <;> exact absurd hr (by decide)
        · split at h <;> simp at h
  · simpa using hm

/-- Claim C3 (amended): inside the 300-sample monitoring loop the
"unknown error occurred" marker is debounced exactly as claimed — a marker
seen only on samples with iteration index below 10 (the 2 s grace window of
0.2 s samples that follows the initial 2 s sleep) never escalates, and a
marker seen on 3 consecutive samples at or after index 10 (with no other
exit condition firing earlier) always escalates to `raiseDetected`; however
the loop is not the only escalation path: after the loop falls through, a
single observation of the marker in the final page source, together with
"please try again" on an unchanged URL, also yields a Detected outcome. -/
theorem c3_unknown_error_debounce (initialUrl : List Nat) (samples : Nat → VSample)
    (passwordWait : Bool) (finalUrl finalSrc recheckUrl recheckSrc : List Nat) :
    ((∀ j, 10 ≤ j → unknownErrB (lowList (samples j).src) = false) →
      pollLoop initialUrl samples ≠ .raiseDetected) ∧
    (∀ i, 10 ≤ i → i + 3 ≤ 300 →
      (∀ j, j < i + 3 → cleanNoExit initialUrl samples j) →
      (∀ j, j < i → unknownErrB (lowList (samples j).src) = false) →
      (∀ j, j < 3 → unknownErrB (lowList (samples (i + j)).src) = true) →
      pollLoop initialUrl samples = .raiseDetected) ∧
    (pollLoop initialUrl samples = .fallthrough → passwordWait = false →
      unknownErrB (lowList finalSrc) = true →
      subStr pleaseTryAgainM (lowList finalSrc) = true →
      finalUrl = initialUrl →
      validateOutcome initialUrl samples passwordWait finalUrl finalSrc
        recheckUrl recheckSrc = .detected unknownRestartMsg) := by
  refine ⟨?_, ?_, ?_⟩
  · intro h
    exact pollAux_no_post_grace_marker initialUrl samples h 300 0 0
  · intro i h10 h300 hclean hpre hmark
    unfold pollLoop
    have hskip := pollAux_skip initialUrl samples i (300 - i) 0
      (fun j hj1 hj2 => ⟨hclean j (by omega), hpre j (by omega)⟩)
    rw [show (300 : Nat) = i + (300 - i) from by omega, hskip, Nat.zero_add]
    exact pollAux_fire initialUrl samples i (300 - i) h10 (by omega)
      (fun j hj => hclean (i + j) (by omega)) hmark
  · intro hpoll hpw hm hpta hurl
    subst hpw
    subst hurl
    simp only [validateOutcome, hpoll]
    simp [hm, hpta]

theorem c3_counterexample :
    unknownErrB (lowList (VSample.src ⟨s2l ("u"), []⟩)) = false ∧
    validateOutcome (s2l ("u")) (fun _ => ⟨s2l ("u"), []⟩) false (s2l ("u"))
      (s2l ("An unknown error occurred. Please try again.")) (s2l ("u")) [] =
      .detected unknownRestartMsg :=
  ⟨by decide, by decide⟩

theorem c3_unknown_error_debounce_witness :
    pollLoop (s2l ("u"))
      (fun j => if j < 10 then ⟨s2l ("u"), s2l ("unknown error occurred")⟩
        else ⟨s2l ("u"), []⟩) ≠ .raiseDetected ∧
    pollLoop (s2l ("u"))
      (fun j => if j < 10 then ⟨s2l ("u"), []⟩
        else ⟨s2l ("u"), s2l ("unknown error occurred")⟩) = .raiseDetected ∧
    validateOutcome (s2l ("u")) (fun _ => ⟨s2l ("u"), []⟩) false (s2l ("u"))
      (s2l ("unknown error occurred. please try again")) (s2l ("u")) [] =
      .detected unknownRestartMsg := by
  refine ⟨?_, ?_, ?_⟩
  · exact (c3_unknown_error_debounce (s2l ("u")) _ false [] [] [] []).1
      (fun j hj => by
        have h : ¬ j < 10 := by omega
        simp only [h, if_false]
        decide)
  · exact (c3_unknown_error_debounce (s2l ("u")) _ false [] [] [] []).2.1 10 (by omega)
      (by omega)
      (fun j hj => by
        unfold cleanNoExit
        by_cases h : j < 10 <;> simp only [h, if_true, if_false] <;>
          exact ⟨by decide, by decide, by decide, by decide⟩)
      (fun j hj => by simp only [hj, if_true]; decide)
      (fun j hj => by
        have h : ¬ 10 + j < 10 := by omega
        simp only [h, if_false]
        decide)
  · exact (c3_unknown_error_debounce (s2l ("u")) (fun _ => ⟨s2l ("u"), []⟩) false (s2l ("u"))
      (s2l ("unknown error occurred. please try again")) (s2l ("u")) []).2.2
      (by decide) rfl (by decide) (by decide) rfl

/-- Claim C5: when classification of the final page yields
`fallback_invalid` and the URL is unchanged, the outcome of
`validate_email` is never that fallback directly: it is determined by
exactly one re-classification after the 1.5 s delay (`recheckResolve`),
and when that single re-check classifies as detection, the Detected
outcome takes precedence over the fallback Invalid. -/
theorem c5_fallback_recheck (initialUrl : List Nat) (samples : Nat → VSample)
    (finalUrl finalSrc recheckUrl recheckSrc : List Nat)
    (hpoll : pollLoop initialUrl samples = .fallthrough)
    (hcl : classify_page (some finalUrl) (some finalSrc) =
      ⟨false, true, false, s2l ("fallback_invalid")⟩)
    (hurl : finalUrl = initialUrl) :
    validateOutcome initialUrl samples false finalUrl finalSrc recheckUrl recheckSrc =
      recheckResolve recheckUrl recheckSrc ∧
    ((classify_page (some recheckUrl) (some recheckSrc)).is_detection = true →
      validateOutcome initialUrl samples false finalUrl finalSrc recheckUrl recheckSrc =
        .detected (detectedBlockedMsg
          (classify_page (some recheckUrl) (some recheckSrc)).reason)) := by
  have hnm := classify_fallback_no_unknown finalUrl finalSrc hcl
  subst hurl
  have hmain : validateOutcome finalUrl samples false finalUrl finalSrc
      recheckUrl recheckSrc = recheckResolve recheckUrl recheckSrc := by
    simp only [validateOutcome, hpoll, hcl]
    simp [hnm]
  refine ⟨hmain, fun hdet => ?_⟩
  rw [hmain]
  unfold recheckResolve
  rw [if_pos hdet]

theorem c5_fallback_recheck_witness :
    validateOutcome (s2l ("u")) (fun _ => ⟨s2l ("u"), []⟩) false (s2l ("u")) []
      (s2l ("u")) (s2l ("captcha")) =
      .detected (detectedBlockedMsg (s2l ("detected_marker:captcha"))) := by
  have h := c5_fallback_recheck (s2l ("u")) (fun _ => ⟨s2l ("u"), []⟩) (s2l ("u")) []
    (s2l ("u")) (s2l ("captcha")) (by decide) (by decide) rfl
  have h2 := h.2 (by decide)
  rw [h2]
  decide

/-! ## Worker retry loop (`browser_worker`, ap.py lines 972-1173) -/

/-- The Python exceptions `validate_email` can raise into the worker
`except` chain.  The class hierarchy matters: `BrowserDetectedException`
subclasses `WebDriverException` (ap.py line 31), and the selenium
`TimeoutException` also subclasses `WebDriverException`. -/
inductive PyExc where
  | browserDetected (msg : List Nat)
  | timeoutExc
  | webdriverExc (msg : List Nat)
  | otherExc (msg : List Nat)
deriving DecidableEq

/-- `isinstance(e, BrowserDetectedException)`. -/
def PyExc.isBrowserDetected : PyExc → Bool
  | .browserDetected _ => true
  | _ => false

/-- `isinstance(e, WebDriverException)`: true for `BrowserDetectedException`
and for the selenium `TimeoutException`, both of which subclass it. -/
def PyExc.isWebDriver : PyExc → Bool
  | .browserDetected _ => true
  | .timeoutExc => true
  | .webdriverExc _ => true
  | .otherExc _ => false

/-- `isinstance(e, TimeoutException)`. -/
def PyExc.isTimeout : PyExc → Bool
  | .timeoutExc => true
  | _ => false

/-- `str(e)`. -/
def PyExc.msg : PyExc → List Nat
  | .browserDetected m => m
  | .timeoutExc => s2l ("Timeout")
  | .webdriverExc m => m
  | .otherExc m => m

/-- One browser session (an `AfterPayBatchValidator`): its identity doubles
as the driver PID, and `randomProfile` records whether it was created with
a disposable random profile directory. -/
structure Session where
  id : Nat
  randomProfile : Bool
deriving DecidableEq

/-- The fields of the result dict a worker stores for one email
(ap.py lines 597-606 and the error dicts of lines 1018-1172). -/
structure EmailResult where
  email : List Nat
  valid : Bool
  error : Option (List Nat)
deriving DecidableEq

/-- Observable outcome of one run of the worker attempt loop. -/
structure LoopOut where
  result : EmailResult
  used : List Session
  closed : List Session
  finalValidator : Option Session
  registry : Option Nat
deriving DecidableEq

/-- The per-email attempt loop of a worker (ap.py lines 973-1173):
`while attempts <= max_retries` with `max_retries = 2`.

* `validate a s` is the outcome of calling `validator.validate_email` on
  session `s` when the loop counter `attempts` equals `a`.
* `createOk a` tells whether the fresh-validator construction attempted
  after `attempts` was bumped to `a` succeeds.
* A `BrowserDetectedException` unregisters the PID of the slot, closes the
  session, bumps `attempts`, and either records the permanent failure
  (`attempts > 2`), creates a fresh random-profile session and retries, or
  records a restart failure.
* Any other `WebDriverException` — which includes the selenium
  `TimeoutException`, caught here and not by the dead
  `except TimeoutException` clause below it — follows the same
  close-and-rotate path.
* The `except TimeoutException` branch (ap.py lines 1134-1145) keeps the
  session and records a final Timeout result; it is unreachable because the
  `except WebDriverException` clause above it already matches.
* A validator of `none` models the `AttributeError` raised by calling
  `validate_email` on `None`, caught by the generic `except Exception`.
* Fuel exhaustion and loop exit with `result is None` both produce the
  fallback dict of ap.py lines 1163-1173; from the entry state the loop
  always ends earlier. -/
def workerLoopAux (email : List Nat) (validate : Nat → Session → Except PyExc Bool)
    (createOk : Nat → Bool) :
    Nat → Nat → Option Session → Nat → Option Nat → List Session → List Session →
    LoopOut
  | 0, _, validator, _, registry, used, closed =>
    ⟨⟨email, false, some (s2l ("Unknown failure"))⟩, used, closed, validator, registry⟩
  | fuel + 1, attempts, validator, nextId, registry, used, closed =>
    if attempts > 2 then
      ⟨⟨email, false, some (s2l ("Unknown failure"))⟩, used, closed, validator, registry⟩
    else
      match validator with
      | none =>
        ⟨⟨email, false,
            some (s2l ("AttributeError: NoneType object has no attribute validate_email"))⟩,
          used, closed, none, registry⟩
      | some s =>
        match validate attempts s with
        | .ok v => ⟨⟨email, v, none⟩, used ++ [s], closed, some s, registry⟩
        | .error e =>
          if e.isBrowserDetected then
            if attempts + 1 > 2 then
              ⟨⟨email, false, some (s2l ("Browser detected after 2 retries"))⟩,
                used ++ [s], closed ++ [s], none, none⟩
            else if createOk (attempts + 1) then
              workerLoopAux email validate createOk fuel (attempts + 1)
                (some ⟨nextId, true⟩) (nextId + 1) (some nextId)
                (used ++ [s]) (closed ++ [s])
            else
              ⟨⟨email, false, some (s2l ("Could not restart browser after detection"))⟩,
                used ++ [s], closed ++ [s], none, none⟩
          else if e.isWebDriver then
            if attempts + 1 > 2 then
              ⟨⟨email, false, some e.msg⟩, used ++ [s], closed ++ [s], some s, none⟩
            else if createOk (attempts + 1) then
              workerLoopAux email validate createOk fuel (attempts + 1)
                (some ⟨nextId, true⟩) (nextId + 1) (some nextId)
                (used ++ [s]) (closed ++ [s])
            else
              workerLoopAux email validate createOk fuel (attempts + 1)
                none nextId none (used ++ [s]) (closed ++ [s])
          else if e.isTimeout then
            ⟨⟨email, false, some (s2l ("Timeout"))⟩, used ++ [s], closed, some s, registry⟩
          else
            ⟨⟨email, false, some e.msg⟩, used ++ [s], closed, some s, registry⟩

/-- One full run of the attempt loop for one dequeued email: the worker
holds session `s0` (registered under its PID) and `n0` is the next fresh
session identity; 4 units of fuel strictly dominate the at most
4 iterations (`attempts` is bumped on every non-final iteration and the
loop guard is `attempts <= 2`). -/
def workerAttempts (email : List Nat) (validate : Nat → Session → Except PyExc Bool)
    (createOk : Nat → Bool) (s0 : Session) (n0 : Nat) : LoopOut :=
  workerLoopAux email validate createOk 4 0 (some s0) n0 (some s0.id) [] []

theorem workerLoopAux_used_le (email : List Nat)
    (validate : Nat → Session → Except PyExc Bool) (createOk : Nat → Bool) :
    ∀ fuel attempts validator nextId registry used closed, attempts ≤ 2 →
      (workerLoopAux email validate createOk fuel attempts validator nextId
        registry used closed).used.length ≤ used.length + (3 - attempts) := by
  intro fuel
  induction fuel with
  | zero => intro attempts validator nextId registry used closed _; simp [workerLoopAux]
  | succ fuel ih =>
    intro attempts validator nextId registry used closed ha
    simp only [workerLoopAux]
    split
    · simp
    · split
      · simp
      · split
        · simp; omega
        · split
          · split
            · simp; omega
            · split
              · exact le_trans (ih _ _ _ _ _ _ (by omega)) (by simp; omega)
              · simp; omega
          · split
            · split
              · simp; omega
              · split
                · exact le_trans (ih _ _ _ _ _ _ (by omega)) (by simp; omega)
                · exact le_trans (ih _ _ _ _ _ _ (by omega)) (by simp; omega)
            · split
              · simp; omega
              · simp; omega

theorem workerLoopAux_email (email : List Nat)
    (validate : Nat → Session → Except PyExc Bool) (createOk : Nat → Bool) :
    ∀ fuel attempts validator nextId registry used closed,
      (workerLoopAux email validate createOk fuel attempts validator nextId
        registry used closed).result.email = email := by
  intro fuel
  induction fuel with
  | zero => intro _ _ _ _ _ _; rfl
  | succ fuel ih =>
    intro attempts validator nextId registry used closed
    simp only [workerLoopAux]
    repeat' split
    all_goals first | rfl | apply ih

theorem workerLoopAux_used_fresh (email : List Nat)
    (validate : Nat → Session → Except PyExc Bool) (createOk : Nat → Bool) :
    ∀ fuel attempts validator nextId registry used closed,
      (∀ x ∈ used, x.id < nextId) →
      (∀ s, validator = some s → s.id < nextId ∧ ∀ x ∈ used, x.id < s.id) →
      List.Pairwise (fun a b => a.id < b.id) used →
      List.Pairwise (fun a b => a.id < b.id)
        (workerLoopAux email validate createOk fuel attempts validator nextId
          registry used closed).used := by
  intro fuel
  induction fuel with
  | zero => intro _ _ _ _ _ _ _ _ hp; exact hp
  | succ fuel ih =>
    intro attempts validator nextId registry used closed hn hv hp
    simp only [workerLoopAux]
    split
    · exact hp
    · split
      · exact hp
      · next s =>
        have hs := hv s rfl
        have hps : List.Pairwise (fun a b => a.id < b.id) (used ++ [s]) := by
          rw [List.pairwise_append]
          refine ⟨hp, List.pairwise_singleton _ _, fun x hx y hy => ?_⟩
          simp at hy; subst hy; exact hs.2 x hx
        have hn1 : ∀ x ∈ used ++ [s], x.id < nextId + 1 := by
          intro x hx
          rcases List.mem_append.mp hx with hx | hx
          · exact lt_trans (hn x hx) (Nat.lt_succ_self _)
          · simp at hx; subst hx; exact lt_trans hs.1 (Nat.lt_succ_self _)
        have hn0 : ∀ x ∈ used ++ [s], x.id < nextId := by
          intro x hx
          rcases List.mem_append.mp hx with hx | hx
          · exact hn x hx
          · simp at hx; subst hx; exact hs.1
        have hv1 : ∀ t, (some (⟨nextId, true⟩ : Session)) = some t →
            t.id < nextId + 1 ∧ ∀ x ∈ used ++ [s], x.id < t.id := by
          intro t ht
          cases ht
          exact ⟨Nat.lt_succ_self _, hn0⟩
        have hv0 : ∀ t, (none : Option Session) = some t →
            t.id < nextId ∧ ∀ x ∈ used ++ [s], x.id < t.id := by
          intro t ht; cases ht
        split
        · exact hps
        · split
          · split
            · exact hps
            · split
              · exact ih _ _ _ _ _ _ hn1 hv1 hps
              · exact hps
          · split
            · split
              · exact hps
              · split
                · exact ih _ _ _ _ _ _ hn1 hv1 hps
                · exact ih _ _ _ _ _ _ hn0 hv0 hps
            · split
              · exact hps
              · exact hps

theorem workerLoopAux_used_pred (email : List Nat)
    (validate : Nat → Session → Except PyExc Bool) (createOk : Nat → Bool)
    (P : Session → Prop) (hfresh : ∀ n, P ⟨n, true⟩) :
    ∀ fuel attempts validator nextId registry used closed,
      (∀ x ∈ used, P x) → (∀ s, validator = some s → P s) →
      ∀ x ∈ (workerLoopAux email validate createOk fuel attempts validator nextId
        registry used closed).used, P x := by
  intro fuel
  induction fuel with
  | zero => intro _ _ _ _ _ _ hu _; exact hu
  | succ fuel ih =>
    intro attempts validator nextId registry used closed hu hv x hx
    simp only [workerLoopAux] at hx
    split at hx
    · exact hu x hx
    · split at hx
      · exact hu x hx
      · rename_i s
        have hus : ∀ y ∈ used ++ [s], P y := by
          intro y hy
          rcases List.mem_append.mp hy with hy | hy
          · exact hu y hy
          · simp at hy; rw [hy]; exact hv s rfl
        have hv1 : ∀ t, (some (⟨nextId, true⟩ : Session)) = some t → P t := by
          intro t ht; cases ht; exact hfresh _
        have hv0 : ∀ t, (none : Option Session) = some t → P t := by
          intro t ht; cases ht
        split at hx
        · exact hus x hx
        · split at hx
          · split at hx
            · exact hus x hx
            · split at hx
              · exact ih _ _ _ _ _ _ hus hv1 x hx
              · exact hus x hx
          · split at hx
            · split at hx
              · exact hus x hx
              · split at hx
                · exact ih _ _ _ _ _ _ hus hv1 x hx
                · exact ih _ _ _ _ _ _ hus hv0 x hx
            · split at hx
              · exact hus x hx
              · exact hus x hx

/-- Claim C4: the retry loop rotates on detection exactly as claimed: it
uses at most 3 sessions per email (the initial one plus at most
`max_retries = 2` rotations), never reuses a session (session identities
are strictly increasing along the attempts), every session other than the
initial one is created with a disposable random profile, and when every
attempt raises `BrowserDetectedException` the loop closes all three
sessions, unregisters the PID of the slot, and records the permanent failure
whose error field is `Browser detected after 2 retries`. -/
theorem c4_detection_rotation (email : List Nat)
    (validate : Nat → Session → Except PyExc Bool) (createOk : Nat → Bool)
    (s0 : Session) (n0 : Nat) (dm : List Nat)
    (hok : ∀ n, createOk n = true) (hid : s0.id < n0) :
    (workerAttempts email validate createOk s0 n0).used.length ≤ 3 ∧
    List.Pairwise (fun a b => a.id < b.id)
      (workerAttempts email validate createOk s0 n0).used ∧
    (∀ x ∈ (workerAttempts email validate createOk s0 n0).used,
      x.randomProfile = true ∨ x = s0) ∧
    ((∀ a s, validate a s = Except.error (.browserDetected dm)) →
      workerAttempts email validate createOk s0 n0 =
        ⟨⟨email, false, some (s2l ("Browser detected after 2 retries"))⟩,
          [s0, ⟨n0, true⟩, ⟨n0 + 1, true⟩], [s0, ⟨n0, true⟩, ⟨n0 + 1, true⟩],
          none, none⟩) := by
  refine ⟨?_, ?_, ?_, ?_⟩
  · simpa using workerLoopAux_used_le email validate createOk 4 0 (some s0) n0
      (some s0.id) [] [] (by omega)
  · exact workerLoopAux_used_fresh email validate createOk 4 0 (some s0) n0
      (some s0.id) [] [] (by simp) (fun s hs => by cases hs; exact ⟨hid, by simp⟩)
      (by simp)
  · exact workerLoopAux_used_pred email validate createOk _ (fun n => Or.inl rfl) 4 0
      (some s0) n0 (some s0.id) [] [] (by simp) (fun s hs => by cases hs; exact Or.inr rfl)
  · intro hdet
    simp [workerAttempts, workerLoopAux, hdet, hok, PyExc.isBrowserDetected]

theorem c4_detection_rotation_witness :
    workerAttempts (s2l ("a@b.c"))
      (fun _ _ => Except.error (.browserDetected (s2l ("captcha")))) (fun _ => true)
      ⟨0, false⟩ 1 =
      ⟨⟨s2l ("a@b.c"), false, some (s2l ("Browser detected after 2 retries"))⟩,
        [⟨0, false⟩, ⟨1, true⟩, ⟨2, true⟩], [⟨0, false⟩, ⟨1, true⟩, ⟨2, true⟩],
        none, none⟩ ∧
    (workerAttempts (s2l ("a@b.c"))
      (fun _ _ => Except.error (.browserDetected (s2l ("captcha")))) (fun _ => true)
      ⟨0, false⟩ 1).used.length ≤ 3 :=
  have h := c4_detection_rotation (s2l ("a@b.c"))
    (fun _ _ => Except.error (.browserDetected (s2l ("captcha")))) (fun _ => true)
    ⟨0, false⟩ 1 (s2l ("captcha")) (fun _ => rfl) (by decide)
  ⟨h.2.2.2 (fun _ _ => rfl), h.1⟩

/-- Claim C9 (code bug): a `TimeoutException` raised by `validate_email` is
caught by the `except WebDriverException` clause of the worker — the selenium
`TimeoutException` subclasses `WebDriverException` — so the worker closes
the session, rotates to a fresh one and retries the email; the dedicated
`except TimeoutException` branch of ap.py lines 1134-1145, which would have
recorded a final Timeout result with no retry and kept the session, is
unreachable.  At the failing input (timeout on the first attempt, success
on the retry) the first session is closed, a second session is used, and
the stored result is that of the retry — not a Timeout result. -/
theorem c9_timeout_rotates :
    workerAttempts (s2l ("x@y.z"))
      (fun a _ => if a = 0 then Except.error PyExc.timeoutExc else Except.ok false)
      (fun _ => true) ⟨0, false⟩ 1 =
      ⟨⟨s2l ("x@y.z"), false, none⟩, [⟨0, false⟩, ⟨1, true⟩], [⟨0, false⟩],
        some ⟨1, true⟩, some 1⟩ ∧
    (workerAttempts (s2l ("x@y.z"))
      (fun a _ => if a = 0 then Except.error PyExc.timeoutExc else Except.ok false)
      (fun _ => true) ⟨0, false⟩ 1).closed ≠ [] ∧
    (workerAttempts (s2l ("x@y.z"))
      (fun a _ => if a = 0 then Except.error PyExc.timeoutExc else Except.ok false)
      (fun _ => true) ⟨0, false⟩ 1).result.error ≠ some (s2l ("Timeout")) :=
  ⟨by decide, by decide, by decide⟩

/-! ## Session teardown (`AfterPayBatchValidator.close`, ap.py lines 608-678) -/

/-- The operations `close()` can attempt. -/
inductive CloseAct where
  | driverClose
  | driverQuit
  | killChildren (pid : Nat)
  | killParent (pid : Nat)
  | procKill (pid : Nat)
  | rmtree (dir : List Nat)
deriving DecidableEq

/-- The driver handle as `close()` sees it: its service process PID, when
readable. -/
structure DriverH where
  pid : Option Nat
deriving DecidableEq

/-- The fields of `AfterPayBatchValidator` that `close()` touches. -/
structure ValidatorSt where
  driver : Option DriverH
  profile_dir : Option (List Nat)
deriving DecidableEq

/-- Which primitive operations raise during this `close()` call, plus
psutil availability. -/
structure CloseCfg where
  closeRaises : Bool
  quitRaises : Bool
  psutilAvail : Bool
  childKillRaises : Bool
  parentKillRaises : Bool
  procKillRaises : Bool
  rmtreeRaises : Bool
deriving DecidableEq

/-- A Python statement run: the operations it attempted, and `ok` or an
escaped exception. -/
abbrev PyR := List CloseAct × Except Unit Unit

/-- Invoke one primitive: it is attempted (recorded) and raises exactly
when the configuration says so. -/
def pyOp (raises : Bool) (a : CloseAct) : PyR :=
  ([a], if raises then .error () else .ok ())

/-- Sequencing: the second statement runs only when the first did not
raise. -/
def pySeq (x y : PyR) : PyR :=
  match x with
  | (acts, .error e) => (acts, .error e)
  | (acts, .ok _) => (acts ++ y.1, y.2)

/-- `try: ... except ...: <log/pass>` — every handler in `close()` only
logs, so a catch always continues normally. -/
def pyCatch (x : PyR) : PyR := (x.1, .ok ())

/-- A statement that does nothing. -/
def pyNop : PyR := ([], .ok ())

/-- The body of `close()` (ap.py lines 610-676): the graceful
`driver.close()`/`driver.quit()` block with its two nested handlers, then
the process-kill block (psutil child+parent kill, or the `proc.kill()`
fallback) with its handlers, then — unconditionally after the driver block,
because every driver failure is swallowed locally — removal of the
disposable profile directory, itself guarded by a handler and a `finally`
that clears the field. -/
def closeBody (cfg : CloseCfg) (st : ValidatorSt) : PyR :=
  pySeq
    (match st.driver with
     | none => pyNop
     | some d =>
       pySeq
         (pyCatch (pyCatch (pySeq (pyCatch (pyOp cfg.closeRaises .driverClose))
            (pyOp cfg.quitRaises .driverQuit))))
         (pyCatch
           (match d.pid with
            | none => pyNop
            | some pid =>
              if cfg.psutilAvail then
                pySeq (pyCatch (pyOp cfg.childKillRaises (.killChildren pid)))
                  (pyCatch (pyOp cfg.parentKillRaises (.killParent pid)))
              else
                pyCatch (pyOp cfg.procKillRaises (.procKill pid)))))
    (match st.profile_dir with
     | none => pyNop
     | some dir => pyCatch (pyOp cfg.rmtreeRaises (.rmtree dir)))

/-- `close()` in full: the whole body sits inside one more
`try/except Exception` (ap.py lines 610, 677-678). -/
def closeRun (cfg : CloseCfg) (st : ValidatorSt) : PyR := pyCatch (closeBody cfg st)

/-- The validator state after `close()`: the `finally` of the profile-dir
block leaves `profile_dir = None`; the driver field is untouched. -/
def closeFinalSt (st : ValidatorSt) : ValidatorSt :=
  { st with profile_dir := none }

/-- Claim C6: `close()` never lets an exception escape — for every
combination of failing primitives (driver quit failure, process-kill
failure, file-system failure) the handler structure swallows the failure —
and on every call, when a disposable profile directory was created, its
removal is invoked (the driver block cannot skip it, since all its
failures are caught locally) and the state afterwards holds no profile
directory. -/
theorem c6_close_no_throw (cfg : CloseCfg) (st : ValidatorSt) :
    (closeRun cfg st).2 = Except.ok () ∧
    (∀ dir, st.profile_dir = some dir →
      CloseAct.rmtree dir ∈ (closeRun cfg st).1 ∧
      (closeFinalSt st).profile_dir = none) := by
  constructor
  · rfl
  · intro dir hdir
    refine ⟨?_, rfl⟩
    obtain ⟨drv, pdir⟩ := st
    simp only at hdir
    subst hdir
    rcases drv with _ | ⟨_ | pid⟩
    · simp [closeRun, closeBody, pyCatch, pySeq, pyOp, pyNop]
    · simp [closeRun, closeBody, pyCatch, pySeq, pyOp, pyNop]
    · by_cases hp : cfg.psutilAvail = true <;>
        simp [closeRun, closeBody, pyCatch, pySeq, pyOp, pyNop, hp]

theorem c6_close_no_throw_witness :
    (closeRun ⟨true, true, true, true, true, true, true⟩
        ⟨some ⟨some 7⟩, some (s2l ("ap_profile_x"))⟩).2 = Except.ok () ∧
    CloseAct.rmtree (s2l ("ap_profile_x")) ∈
      (closeRun ⟨true, true, true, true, true, true, true⟩
        ⟨some ⟨some 7⟩, some (s2l ("ap_profile_x"))⟩).1 :=
  have h := c6_close_no_throw ⟨true, true, true, true, true, true, true⟩
    ⟨some ⟨some 7⟩, some (s2l ("ap_profile_x"))⟩
  ⟨h.1, (h.2 _ rfl).1⟩

/-! ## Orphan reaping (`cleanup_orphan_drivers`, ap.py lines 778-824) -/

/-- One live OS process as `psutil.process_iter` reports it: PID and the
space-joined command line. -/
structure ProcInfo where
  pid : Nat
  cmdline : List Nat
deriving DecidableEq

/-- The command-line signature test of ap.py line 815:
`ap_profile_` in cmdline, or `undetected_chromedriver` in cmdline, or
`undetect` in cmdline. -/
def orphanSignature (cmd : List Nat) : Bool :=
  subStr (s2l ("ap_profile_")) cmd ||
  subStr (s2l ("undetected_chromedriver")) cmd ||
  subStr (s2l ("undetect")) cmd

/-- Should a process be killed by the scan (the conjunction of the checks
of ap.py lines 806-815, excluding the time budget)? -/
def orphanKillPred (myPid : Nat) (current : List Nat) (p : ProcInfo) : Bool :=
  decide (p.pid ≠ myPid ∧ p.cmdline ≠ [] ∧ orphanSignature p.cmdline = true ∧
    p.pid ∉ current)

/-- The process scan of `cleanup_orphan_drivers` (ap.py lines 799-822):
`i` is the iteration index, `overBudget i` tells whether more than 5 s of
wall clock have elapsed when iteration `i` starts (in which case the scan
breaks, leaving the rest unexamined); the PID of the controller itself is skipped,
empty command lines are skipped, and a matching unregistered PID is
killed. -/
def cleanupAux (myPid : Nat) (current : List Nat) (overBudget : Nat → Bool) :
    Nat → List ProcInfo → List Nat
  | _, [] => []
  | i, p :: rest =>
    if overBudget i then []
    else
      (if p.pid = myPid then []
       else if p.cmdline = [] then []
       else if orphanSignature p.cmdline = true ∧ p.pid ∉ current then [p.pid]
       else []) ++
      cleanupAux myPid current overBudget (i + 1) rest

/-- `cleanup_orphan_drivers` (ap.py lines 778-824): returns the PIDs it
kills.  `current` is the snapshot of `browser_pids.values()` taken under
the registry lock before the scan; without psutil the scan is skipped. -/
def cleanup_orphan_drivers (psutilAvail : Bool) (myPid : Nat) (current : List Nat)
    (overBudget : Nat → Bool) (procs : List ProcInfo) : List Nat :=
  if psutilAvail then cleanupAux myPid current overBudget 0 procs else []

theorem cleanupAux_sound (myPid : Nat) (current : List Nat) (overBudget : Nat → Bool) :
    ∀ procs i, ∀ x ∈ cleanupAux myPid current overBudget i procs,
      ∃ p ∈ procs, p.pid = x ∧ orphanSignature p.cmdline = true ∧
        x ∉ current ∧ x ≠ myPid := by
  intro procs
  induction procs with
  | nil => intro i x hx; simp [cleanupAux] at hx
  | cons p rest ih =>
    intro i x hx
    simp only [cleanupAux] at hx
    split at hx
    · simp at hx
    · rcases List.mem_append.mp hx with hx | hx
      · split at hx
        · simp at hx
        · split at hx
          · simp at hx
          · split at hx
            · next hmy _ hsig =>
              simp at hx
              subst hx
              exact ⟨p, List.mem_cons_self _ _, rfl, hsig.1, hsig.2, hmy⟩
            · simp at hx
      · obtain ⟨q, hq, hqq⟩ := ih (i + 1) x hx
        exact ⟨q, List.mem_cons_of_mem _ hq, hqq⟩

theorem cleanupAux_complete (myPid : Nat) (current : List Nat)
    (overBudget : Nat → Bool) (hb : ∀ i, overBudget i = false) :
    ∀ procs i, cleanupAux myPid current overBudget i procs =
      (procs.filter (orphanKillPred myPid current)).map (fun p => p.pid) := by
  intro procs
  induction procs with
  | nil => intro i; rfl
  | cons p rest ih =>
    intro i
    simp only [cleanupAux, hb i, Bool.false_eq_true, if_false, ih (i + 1)]
    by_cases h1 : p.pid = myPid
    · simp [orphanKillPred, List.filter, h1]
    · by_cases h2 : p.cmdline = ([] : List Nat)
      · simp [orphanKillPred, List.filter, h1, h2]
      · by_cases h3 : orphanSignature p.cmdline = true ∧ p.pid ∉ current
        · simp [orphanKillPred, List.filter, h1, h2, h3.1, h3.2]
        · rw [if_neg h1, if_neg h2, if_neg h3]
          have : orphanKillPred myPid current p = false := by
            simp [orphanKillPred, h1, h2]
            intro hs
            rcases not_and_or.mp h3 with h | h
            · exact absurd hs h
            · simpa using h
          simp [List.filter, this]

theorem c7_counterexample :
    cleanup_orphan_drivers true 1 [] (fun _ => false)
      [⟨100, s2l ("undetect_tool --serve")⟩] = [100] ∧
    subStr (s2l ("ap_profile_")) (s2l ("undetect_tool --serve")) = false ∧
    subStr (s2l ("undetected_chromedriver")) (s2l ("undetect_tool --serve")) = false :=
  ⟨by decide, by decide, by decide⟩

/-- Claim C7 (amended): orphan reaping never kills a PID present in the
snapshot of the registry taken at the start of the scan, nor the
the controller process itself; only processes whose command line match the
automation signature — the profile-directory prefix `ap_profile_`, the
driver binary name `undetected_chromedriver`, or, more broadly than the
claim states, any command line containing the substring `undetect` — AND
whose PID is not in the snapshot are killed; the scan visits processes in
order only while the 5-second budget has not elapsed (partial cleanup),
and when the budget never elapses it kills exactly the matching
unregistered processes. -/
theorem c7_orphan_reaping (psutilAvail : Bool) (myPid : Nat) (current : List Nat)
    (overBudget : Nat → Bool) (procs : List ProcInfo) :
    (∀ q ∈ current,
      q ∉ cleanup_orphan_drivers psutilAvail myPid current overBudget procs) ∧
    myPid ∉ cleanup_orphan_drivers psutilAvail myPid current overBudget procs ∧
    (∀ x ∈ cleanup_orphan_drivers psutilAvail myPid current overBudget procs,
      ∃ p ∈ procs, p.pid = x ∧ orphanSignature p.cmdline = true ∧
        x ∉ current ∧ x ≠ myPid) ∧
    ((∀ i, overBudget i = false) →
      cleanup_orphan_drivers true myPid current overBudget procs =
        (procs.filter (orphanKillPred myPid current)).map (fun p => p.pid)) := by
  have hsound : ∀ x ∈ cleanup_orphan_drivers psutilAvail myPid current overBudget procs,
      ∃ p ∈ procs, p.pid = x ∧ orphanSignature p.cmdline = true ∧
        x ∉ current ∧ x ≠ myPid := by
    cases psutilAvail
    · intro x hx; simp [cleanup_orphan_drivers] at hx
    · intro x hx
      exact cleanupAux_sound myPid current overBudget procs 0 x
        (by simpa [cleanup_orphan_drivers] using hx)
  refine ⟨?_, ?_, hsound, fun hb => ?_⟩
  · intro q hq hmem
    obtain ⟨p, _, _, _, hnc, _⟩ := hsound q hmem
    exact hnc hq
  · intro hmem
    obtain ⟨p, _, _, _, _, hne⟩ := hsound myPid hmem
    exact hne rfl
  · simp only [cleanup_orphan_drivers, if_pos rfl]
    exact cleanupAux_complete myPid current overBudget hb procs 0

theorem c7_orphan_reaping_witness :
    (6 : Nat) ∉ cleanup_orphan_drivers true 1 [6] (fun _ => false)
      [⟨5, s2l ("chrome ap_profile_a")⟩, ⟨6, s2l ("chrome ap_profile_b")⟩,
        ⟨1, s2l ("ap_profile_self")⟩] ∧
    (1 : Nat) ∉ cleanup_orphan_drivers true 1 [6] (fun _ => false)
      [⟨5, s2l ("chrome ap_profile_a")⟩, ⟨6, s2l ("chrome ap_profile_b")⟩,
        ⟨1, s2l ("ap_profile_self")⟩] ∧
    cleanup_orphan_drivers true 1 [6] (fun _ => false)
      [⟨5, s2l ("chrome ap_profile_a")⟩, ⟨6, s2l ("chrome ap_profile_b")⟩,
        ⟨1, s2l ("ap_profile_self")⟩] =
      (([⟨5, s2l ("chrome ap_profile_a")⟩, ⟨6, s2l ("chrome ap_profile_b")⟩,
        ⟨1, s2l ("ap_profile_self")⟩] : List ProcInfo).filter
          (orphanKillPred 1 [6])).map (fun p => p.pid) :=
  have h := c7_orphan_reaping true 1 [6] (fun _ => false)
    [⟨5, s2l ("chrome ap_profile_a")⟩, ⟨6, s2l ("chrome ap_profile_b")⟩,
      ⟨1, s2l ("ap_profile_self")⟩]
  ⟨h.1 6 (by decide), h.2.1, h.2.2.2 (fun _ => rfl)⟩

/-! ## Pool-level task accounting and stop
(`process_emails` / `browser_worker` / `stop`, ap.py lines 714-1350) -/

/-- Control state of one worker slot inside the email loop of
`browser_worker` (ap.py lines 916-1224). -/
inductive WStatus where
  | idle
  | passedGuard
  | gotTask (email : List Nat)
  | done
deriving DecidableEq

/-- Shared pool state: the task queue, the per-worker control states, the
result store, and the stop flag. -/
structure PoolState where
  queue : List (List Nat)
  workers : List WStatus
  results : List EmailResult
  stopFlag : Bool
deriving DecidableEq

/-- Emails currently held by workers. -/
def inFlight (ws : List WStatus) : List (List Nat) :=
  ws.filterMap fun w => match w with
    | .gotTask e => some e
    | _ => none

/-- Test for a worker sitting between the loop guard and the queue pop. -/
def isPassedGuard : WStatus → Bool
  | .passedGuard => true
  | _ => false

/-- Number of workers sitting between the loop guard and the queue pop. -/
def pgCount (ws : List WStatus) : Nat := ws.countP isPassedGuard

/-- One interleaved step of the pool.
* `setStop`: `stop()` sets the shared flag (ap.py line 1324).
* `guardPass`: a worker passes the loop guard
  `not empty and not stop` (line 916); possible only while the stop flag
  is clear and the queue non-empty.
* `guardExitEmpty` / `guardExitStop`: the guard fails and the worker
  drains and finishes (lines 916, 1207-1224).
* `dequeue`: `email_queue.get` (line 936) — the stop flag is NOT
  re-checked between the guard and the pop, so this fires regardless of
  the flag.
* `dequeueEmpty`: the pop times out on an empty queue and the worker
  loops (lines 937-939).
* `dropTask`: the post-pop stop check discards the dequeued task without
  recording a result (line 945).
* `process`: one full run of the attempt loop for the dequeued email,
  appending exactly one result under the results lock
  (lines 973-1177). -/
inductive PStep : PoolState → PoolState → Prop where
  | setStop (q ws res b) :
      PStep ⟨q, ws, res, b⟩ ⟨q, ws, res, true⟩
  | guardPass (q ws1 ws2 res) (hq : q ≠ []) :
      PStep ⟨q, ws1 ++ .idle :: ws2, res, false⟩
            ⟨q, ws1 ++ .passedGuard :: ws2, res, false⟩
  | guardExitEmpty (ws1 ws2 res b) :
      PStep ⟨[], ws1 ++ .idle :: ws2, res, b⟩ ⟨[], ws1 ++ .done :: ws2, res, b⟩
  | guardExitStop (q ws1 ws2 res) :
      PStep ⟨q, ws1 ++ .idle :: ws2, res, true⟩ ⟨q, ws1 ++ .done :: ws2, res, true⟩
  | dequeue (e q ws1 ws2 res b) :
      PStep ⟨e :: q, ws1 ++ .passedGuard :: ws2, res, b⟩
            ⟨q, ws1 ++ .gotTask e :: ws2, res, b⟩
  | dequeueEmpty (ws1 ws2 res b) :
      PStep ⟨[], ws1 ++ .passedGuard :: ws2, res, b⟩
            ⟨[], ws1 ++ .idle :: ws2, res, b⟩
  | dropTask (e q ws1 ws2 res) :
      PStep ⟨q, ws1 ++ .gotTask e :: ws2, res, true⟩
            ⟨q, ws1 ++ .done :: ws2, res, true⟩
  | process (e q ws1 ws2 res b)
      (validate : Nat → Session → Except PyExc Bool) (createOk : Nat → Bool)
      (s0 : Session) (n0 : Nat) :
      PStep ⟨q, ws1 ++ .gotTask e :: ws2, res, b⟩
            ⟨q, ws1 ++ .idle :: ws2,
              res ++ [(workerAttempts e validate createOk s0 n0).result], b⟩

/-- Any number of interleaved pool steps. -/
def PReach : PoolState → PoolState → Prop := Relation.ReflTransGen PStep

/-- The pool state right after `process_emails` has filled the queue and
spawned `c` worker threads (ap.py lines 1240-1274). -/
def initPool (emails : List (List Nat)) (c : Nat) : PoolState :=
  ⟨emails, List.replicate c .idle, [], false⟩

/-- Tasks are conserved: occurrences of an email across queue, in-flight
slots and result store. -/
def taskCount (x : List Nat) (s : PoolState) : Nat :=
  @List.count _ instBEqOfDecidableEq x s.queue +
    @List.count _ instBEqOfDecidableEq x (inFlight s.workers) +
    @List.count _ instBEqOfDecidableEq x (s.results.map fun r => r.email)

theorem pstep_stop_mono {s s' : PoolState} (h : PStep s s')
    (hs : s.stopFlag = true) : s'.stopFlag = true := by
  cases h <;> first | rfl | exact hs

theorem pstep_stop_back {s s' : PoolState} (h : PStep s s')
    (hs : s'.stopFlag = false) : s.stopFlag = false := by
  cases h <;> first | rfl | exact hs | (exact absurd hs (by simp))

theorem pstep_workers_len {s s' : PoolState} (h : PStep s s') :
    s'.workers.length = s.workers.length := by
  cases h <;> simp

theorem pstep_count (x : List Nat) {s s' : PoolState} (h : PStep s s')
    (hns : s'.stopFlag = false) : taskCount x s' = taskCount x s := by
  cases h with
  | setStop q ws res b => exact absurd hns (by simp)
  | guardPass q ws1 ws2 res hq =>
    simp [taskCount, inFlight, List.filterMap_append]
  | guardExitEmpty ws1 ws2 res b =>
    simp [taskCount, inFlight, List.filterMap_append]
  | guardExitStop q ws1 ws2 res =>
    simp [taskCount, inFlight, List.filterMap_append]
  | dequeue e q ws1 ws2 res b =>
    simp [taskCount, inFlight, List.filterMap_append, List.count_cons,
      List.count_append]
    omega
  | dequeueEmpty ws1 ws2 res b =>
    simp [taskCount, inFlight, List.filterMap_append]
  | dropTask e q ws1 ws2 res => exact absurd hns (by simp)
  | process e q ws1 ws2 res b validate createOk s0 n0 =>
    have he : (workerAttempts e validate createOk s0 n0).result.email = e :=
      workerLoopAux_email e validate createOk 4 0 (some s0) n0 (some s0.id) [] []
    simp [taskCount, inFlight, List.filterMap_append, List.count_cons,
      List.count_append, he]
    omega

/-- Once a worker has finished while the stop flag is clear, the queue is
empty (a worker only exits the loop on an empty queue or a stop). -/
def QInv (s : PoolState) : Prop :=
  s.stopFlag = true ∨ WStatus.done ∉ s.workers ∨ s.queue = []

theorem pstep_QInv {s s' : PoolState} (h : PStep s s') (hq : QInv s) : QInv s' := by
  cases h with
  | setStop q ws res b => exact Or.inl rfl
  | guardPass q ws1 ws2 res hqe =>
    rcases hq with hq | hq | hq
    · simp at hq
    · refine Or.inr (Or.inl ?_)
      simp only [List.mem_append, List.mem_cons] at hq ⊢
      intro hc
      rcases hc with hc | hc | hc
      · exact hq (Or.inl hc)
      · exact WStatus.noConfusion hc
      · exact hq (Or.inr (Or.inr hc))
    · exact Or.inr (Or.inr hq)
  | guardExitEmpty ws1 ws2 res b => exact Or.inr (Or.inr rfl)
  | guardExitStop q ws1 ws2 res => exact Or.inl rfl
  | dequeue e q ws1 ws2 res b =>
    rcases hq with hq | hq | hq
    · exact Or.inl hq
    · refine Or.inr (Or.inl ?_)
      simp only [List.mem_append, List.mem_cons] at hq ⊢
      intro hc
      rcases hc with hc | hc | hc
      · exact hq (Or.inl hc)
      · exact WStatus.noConfusion hc
      · exact hq (Or.inr (Or.inr hc))
    · exact absurd hq (by simp)
  | dequeueEmpty ws1 ws2 res b => exact Or.inr (Or.inr rfl)
  | dropTask e q ws1 ws2 res => exact Or.inl rfl
  | process e q ws1 ws2 res b validate createOk s0 n0 =>
    rcases hq with hq | hq | hq
    · exact Or.inl hq
    · refine Or.inr (Or.inl ?_)
      simp only [List.mem_append, List.mem_cons] at hq ⊢
      intro hc
      rcases hc with hc | hc | hc
      · exact hq (Or.inl hc)
      · exact WStatus.noConfusion hc
      · exact hq (Or.inr (Or.inr hc))
    · exact Or.inr (Or.inr hq)

theorem preach_inv {s s' : PoolState} (htr : PReach s s')
    (hns : s'.stopFlag = false) :
    s.stopFlag = false ∧ (∀ x, taskCount x s' = taskCount x s) ∧
    (QInv s → QInv s') ∧ s'.workers.length = s.workers.length := by
  induction htr with
  | refl => exact ⟨hns, fun _ => rfl, id, rfl⟩
  | tail hab hbc ih =>
    have hbns := pstep_stop_back hbc hns
    obtain ⟨h1, h2, h3, h4⟩ := ih hbns
    exact ⟨h1, fun x => (pstep_count x hbc hns).trans (h2 x),
      fun hq => pstep_QInv hbc (h3 hq),
      (pstep_workers_len hbc).trans h4⟩

theorem inFlight_nil_of_done {ws : List WStatus} (h : ∀ w ∈ ws, w = .done) :
    inFlight ws = [] := by
  induction ws with
  | nil => rfl
  | cons w ws ih =>
    have hw := h w (List.mem_cons_self _ _)
    subst hw
    simp only [inFlight, List.filterMap_cons]
    exact ih fun w hw => h w (List.mem_cons_of_mem _ hw)

theorem inFlight_replicate_idle (c : Nat) :
    inFlight (List.replicate c .idle) = [] := by
  induction c with
  | zero => rfl
  | succ c ih => simp [inFlight, List.replicate_succ, List.filterMap_cons]

/-- Claim C1: for every email list and every positive concurrency at most
the number of emails, whenever the pool runs from its start state to a
state where every worker slot has finished and no stop was requested, the
result store holds exactly one result per submitted email — same length,
and the stored emails are a permutation of the submitted ones (no
duplicates, no omissions) — regardless of the interleaving and of how many
detection or transport-error rotations each `process` step performed
inside its attempt loop. -/
theorem c1_pool_accounting (emails : List (List Nat)) (c : Nat) (s : PoolState)
    (hc1 : 1 ≤ c) (_hcN : c ≤ emails.length)
    (htr : PReach (initPool emails c) s)
    (hdone : ∀ w ∈ s.workers, w = .done)
    (hns : s.stopFlag = false) :
    s.results.length = emails.length ∧
    List.Perm (s.results.map fun r => r.email) emails := by
  obtain ⟨_, hcount, hQ, hlen⟩ := preach_inv htr hns
  have hqinv : QInv s := by
    apply hQ
    refine Or.inr (Or.inl ?_)
    simp [initPool, List.mem_replicate]
  have hqe : s.queue = [] := by
    rcases hqinv with h | h | h
    · rw [hns] at h; exact absurd h (by simp)
    · exfalso
      have hne : s.workers ≠ [] := by
        intro hnil
        rw [hnil] at hlen
        simp [initPool] at hlen
        omega
      obtain ⟨w, hw⟩ := List.exists_mem_of_ne_nil _ hne
      exact h (hdone w hw ▸ hw)
    · exact h
  have hinf := inFlight_nil_of_done hdone
  have hperm : List.Perm (s.results.map fun r => r.email) emails := by
    rw [List.perm_iff_count]
    intro x
    have hx := hcount x
    simp [taskCount, initPool, inFlight_replicate_idle, hqe, hinf] at hx
    exact hx
  refine ⟨?_, hperm⟩
  have := hperm.length_eq
  simpa using this

theorem c1_pool_accounting_witness :
    (⟨[], [WStatus.done], [⟨s2l ("w@x.y"), true, none⟩], false⟩ :
      PoolState).results.length = [s2l ("w@x.y")].length ∧
    List.Perm ((⟨[], [WStatus.done], [⟨s2l ("w@x.y"), true, none⟩], false⟩ :
      PoolState).results.map fun r => r.email) [s2l ("w@x.y")] := by
  apply c1_pool_accounting [s2l ("w@x.y")] 1 _ (by omega) (by simp)
  · have t1 : PStep (initPool [s2l ("w@x.y")] 1)
        ⟨[s2l ("w@x.y")], [WStatus.passedGuard], [], false⟩ :=
      PStep.guardPass [s2l ("w@x.y")] [] [] [] (by simp)
    have t2 : PStep ⟨[s2l ("w@x.y")], [WStatus.passedGuard], [], false⟩
        ⟨[], [WStatus.gotTask (s2l ("w@x.y"))], [], false⟩ :=
      PStep.dequeue (s2l ("w@x.y")) [] [] [] [] false
    have t3 : PStep ⟨[], [WStatus.gotTask (s2l ("w@x.y"))], [], false⟩
        ⟨[], [WStatus.idle], [⟨s2l ("w@x.y"), true, none⟩], false⟩ :=
      PStep.process (s2l ("w@x.y")) [] [] [] [] false
        (fun _ _ => Except.ok true) (fun _ => true) ⟨0, false⟩ 1
    have t4 : PStep ⟨[], [WStatus.idle], [⟨s2l ("w@x.y"), true, none⟩], false⟩
        ⟨[], [WStatus.done], [⟨s2l ("w@x.y"), true, none⟩], false⟩ :=
      PStep.guardExitEmpty [] [] [⟨s2l ("w@x.y"), true, none⟩] false
    exact Relation.ReflTransGen.head t1 (Relation.ReflTransGen.head t2
      (Relation.ReflTransGen.head t3 (Relation.ReflTransGen.single t4)))
  · intro w hw
    simpa using hw
  · rfl

theorem pstep_dequeue_bound {s s' : PoolState} (h : PStep s s')
    (hs : s.stopFlag = true) :
    s.queue.length + pgCount s'.workers ≤ s'.queue.length + pgCount s.workers := by
  cases h with
  | setStop q ws res b => exact le_refl _
  | guardPass q ws1 ws2 res hq => exact absurd hs (by simp)
  | guardExitEmpty ws1 ws2 res b =>
    simp [pgCount, List.countP_append, List.countP_cons, isPassedGuard]
  | guardExitStop q ws1 ws2 res =>
    simp [pgCount, List.countP_append, List.countP_cons, isPassedGuard]
  | dequeue e q ws1 ws2 res b =>
    simp [pgCount, List.countP_append, List.countP_cons, isPassedGuard]
    omega
  | dequeueEmpty ws1 ws2 res b =>
    simp [pgCount, List.countP_append, List.countP_cons, isPassedGuard]
  | dropTask e q ws1 ws2 res =>
    simp [pgCount, List.countP_append, List.countP_cons, isPassedGuard]
  | process e q ws1 ws2 res b validate createOk s0 n0 =>
    simp [pgCount, List.countP_append, List.countP_cons, isPassedGuard]

theorem preach_stop_mono {s s' : PoolState} (htr : PReach s s')
    (hs : s.stopFlag = true) : s'.stopFlag = true := by
  induction htr with
  | refl => exact hs
  | tail hab hbc ih => exact pstep_stop_mono hbc ih

/-- `stop()` (ap.py lines 1321-1350) over the PID registry, sequentially:
the snapshot of `browser_pids.values()` is taken under the lock, every
truthy PID in it is force-killed. -/
def stopKilled (registry : List (Nat × Nat)) : List Nat :=
  (registry.map fun bp => bp.2).filter fun pid => pid != 0

/-- The registry after `stop()`: cleared whenever the snapshot was
non-empty (`if pids_to_kill:`), and a skipped clear can only happen when
the registry was already empty. -/
def stopRegistryAfter (registry : List (Nat × Nat)) : List (Nat × Nat) :=
  if (registry.map fun bp => bp.2) = [] then registry else []

theorem c8_counterexample :
    PStep ⟨[s2l ("a@b.c")], [WStatus.idle], [], false⟩
      ⟨[s2l ("a@b.c")], [WStatus.passedGuard], [], false⟩ ∧
    PStep ⟨[s2l ("a@b.c")], [WStatus.passedGuard], [], false⟩
      ⟨[s2l ("a@b.c")], [WStatus.passedGuard], [], true⟩ ∧
    PStep ⟨[s2l ("a@b.c")], [WStatus.passedGuard], [], true⟩
      ⟨[], [WStatus.gotTask (s2l ("a@b.c"))], [], true⟩ ∧
    (⟨[s2l ("a@b.c")], [WStatus.passedGuard], [], true⟩ : PoolState).stopFlag = true ∧
    (⟨[], [WStatus.gotTask (s2l ("a@b.c"))], [], true⟩ : PoolState).queue.length <
      (⟨[s2l ("a@b.c")], [WStatus.passedGuard], [], true⟩ : PoolState).queue.length :=
  ⟨PStep.guardPass [s2l ("a@b.c")] [] [] [] (by simp),
   PStep.setStop [s2l ("a@b.c")] [WStatus.passedGuard] [] false,
   PStep.dequeue (s2l ("a@b.c")) [] [] [] [] true,
   rfl, by decide⟩

/-- Claim C8 (amended): after `stop()` sets the flag, a worker standing at
the loop-top guard never dequeues again (the `guardPass` step requires a
clear flag), and the number of tasks dequeued from that point on is
bounded by the number of workers already past the guard — each of them may
pop at most one more task, which the post-pop stop check then discards;
and `stop()` force-kills every (truthy) PID tracked in the registry
snapshot and leaves the PID registry empty. -/
theorem c8_stop_amended :
    (∀ s s' : PoolState, s.stopFlag = true → PReach s s' →
      s.queue.length + pgCount s'.workers ≤ s'.queue.length + pgCount s.workers) ∧
    (∀ registry : List (Nat × Nat),
      (∀ pid ∈ registry.map (fun bp => bp.2), pid ≠ 0 → pid ∈ stopKilled registry) ∧
      stopRegistryAfter registry = []) := by
  constructor
  · intro s s' hs htr
    induction htr with
    | refl => exact le_refl _
    | tail hab hbc ih =>
      have hbs := preach_stop_mono hab hs
      have hstep := pstep_dequeue_bound hbc hbs
      omega
  · intro registry
    constructor
    · intro pid hmem hnz
      simp only [stopKilled, List.mem_filter]
      exact ⟨hmem, by simpa using hnz⟩
    · cases registry with
      | nil => rfl
      | cons bp rest => simp [stopRegistryAfter]

theorem c8_stop_amended_witness :
    (⟨[s2l ("a@b.c")], [WStatus.passedGuard], [], true⟩ : PoolState).queue.length +
        pgCount [WStatus.gotTask (s2l ("a@b.c"))] ≤
      (⟨[], [WStatus.gotTask (s2l ("a@b.c"))], [], true⟩ : PoolState).queue.length +
        pgCount [WStatus.passedGuard] ∧
    (5 : Nat) ∈ stopKilled [(1, 5)] ∧
    stopRegistryAfter [(1, 5)] = [] :=
  ⟨c8_stop_amended.1 ⟨[s2l ("a@b.c")], [WStatus.passedGuard], [], true⟩
      ⟨[], [WStatus.gotTask (s2l ("a@b.c"))], [], true⟩ rfl
      (Relation.ReflTransGen.single (PStep.dequeue (s2l ("a@b.c")) [] [] [] [] true)),
   (c8_stop_amended.2 [(1, 5)]).1 5 (by decide) (by decide),
   (c8_stop_amended.2 [(1, 5)]).2⟩
